import Mathlib

/-!
Shallow embedding of the Cinematic Scene Timeline & Audio/Video Synchronization
Engine of wrm-studio (source: src/unnamed/part_000, the VideoGenerator
component).  Pure functions model the handlers; asynchronous handlers are
decomposed into their synchronous segments (the code between two awaits), each
segment becoming one state-transformer, so that arbitrary interleavings can be
expressed by composing segments with other operations in between.
-/

/-- Transition type of a scene (part_000 line 21). -/
inductive TransitionType where
  | cut
  | fade
  | slide
deriving DecidableEq, Repr

/-- Which of the two alternating video buffers is active (part_000 line 185). -/
inductive Player where
  | A
  | B
deriving DecidableEq, Repr

/-- A scene of the timeline (part_000 lines 23-34, interface VideoScene).
JS optional fields become Option; the optional isMerging flag becomes a Bool
(undefined is falsy, i.e. false). -/
@[ext]
structure VideoScene where
  id : String
  url : String
  asset : String
  prompt : String
  duration : Nat
  transition : TransitionType
  audioUrl : Option String := none
  audioScript : Option String := none
  mergedUrl : Option String := none
  isMerging : Bool := false
deriving DecidableEq, Repr

/-- Placeholder scene used only as the junk default of List.getD. -/
def defaultScene : VideoScene :=
  { id := "", url := "", asset := "", prompt := "", duration := 0,
    transition := TransitionType.cut }

instance : Inhabited VideoScene := ⟨defaultScene⟩

/-- The component state of VideoGenerator restricted to the fields the core
logic reads or writes (part_000 lines 135-187).  selectedSceneIds models the
Set<string> as a list. -/
@[ext]
structure StudioState where
  timeline : List VideoScene
  selectedSceneIds : List String
  activeSceneIndex : Nat
  isPlayingAll : Bool
  sceneDuration : Nat
  activePlayer : Player
  isTransitioning : Bool
  transitionType : TransitionType
  isLooping : Bool
  prompt : String
  error : Option String
deriving DecidableEq, Repr

/-- Map with the element index, starting at k; models Array.prototype.map's
(element, index) callback. -/
def mapIdxFrom (f : Nat → VideoScene → VideoScene) :
    Nat → List VideoScene → List VideoScene
  | _, [] => []
  | k, s :: rest => f k s :: mapIdxFrom f (k + 1) rest

/-- Patch the scene at position idx, leaving every other position unchanged;
models the recurring source pattern
prev.map((s, i) => i === idx ? patch(s) : s). -/
def patchByIndex (tl : List VideoScene) (idx : Nat)
    (patch : VideoScene → VideoScene) : List VideoScene :=
  mapIdxFrom (fun i s => if i = idx then patch s else s) 0 tl

/-- Patch every scene whose id matches, leaving the others unchanged; models
the source pattern prev.map(s => s.id === sceneId ? patch(s) : s). -/
def patchById (tl : List VideoScene) (sceneId : String)
    (patch : VideoScene → VideoScene) : List VideoScene :=
  tl.map (fun s => if s.id = sceneId then patch s else s)

/-- clearTimeline (part_000 lines 212-220): on confirmation, reset the
timeline, the selection, the active index, the prompt and the error. -/
def clearTimeline (st : StudioState) (confirmed : Bool) : StudioState :=
  if confirmed then
    { st with timeline := [], selectedSceneIds := [], activeSceneIndex := 0,
              prompt := "", error := none }
  else st

/-- handleDurationChange (part_000 lines 244-252): store the parsed value as
the default duration for new scenes, and, when the timeline is non-empty,
also write it into the active scene.  No clamping is performed by the
handler. -/
def handleDurationChange (val : Nat) (st : StudioState) : StudioState :=
  let st1 := { st with sceneDuration := val }
  if st1.timeline.length > 0 then
    { st1 with timeline := (patchByIndex st1.timeline st1.activeSceneIndex
        (fun s => { s with duration := val })) }
  else st1

/-- The scene object built by executeGeneration on success (part_000 lines
472-479): id is Date.now().toString(), duration is the current global
sceneDuration, transition is cut, audio fields start unset. -/
def mkNewScene (now : Nat) (url asset enhancedPrompt : String)
    (sceneDuration : Nat) : VideoScene :=
  { id := Nat.repr now, url := url, asset := asset, prompt := enhancedPrompt,
    duration := sceneDuration, transition := TransitionType.cut }

/-- The timeline append performed by executeGeneration on success (part_000
lines 481-485): append the new scene and make it active
(setActiveSceneIndex(updated.length - 1)). -/
def appendNewScene (st : StudioState) (now : Nat)
    (url asset enhancedPrompt : String) : StudioState :=
  let newScene := mkNewScene now url asset enhancedPrompt st.sceneDuration
  { st with timeline := st.timeline ++ [newScene],
            activeSceneIndex := (st.timeline ++ [newScene]).length - 1 }

/-- One successful generation call's observable inputs: the Date.now() clock
reading and the generator's outputs. -/
structure GenInput where
  now : Nat
  url : String
  asset : String
  enhancedPrompt : String
deriving DecidableEq, Repr

/-- A sequence of successful generations applied in order. -/
def appendRun (st : StudioState) : List GenInput → StudioState
  | [] => st
  | g :: gs => appendRun (appendNewScene st g.now g.url g.asset g.enhancedPrompt) gs

/-- First synchronous segment of handleGenerateVoiceover after generateSpeech
resolves (part_000 line 400): attach the audio to the scene at the index
snapshot and raise isMerging.  Note that mergedUrl is left untouched. -/
def voiceoverAttachAudio (tl : List VideoScene) (sceneIndex : Nat)
    (audioUrl textToSpeak : String) : List VideoScene :=
  patchByIndex tl sceneIndex
    (fun s => { s with audioUrl := some audioUrl,
                       audioScript := some textToSpeak, isMerging := true })

/-- Segment of handleGenerateVoiceover run when mergeVideoAudio resolves
(part_000 line 406): store the merged url at the index snapshot and clear
isMerging. -/
def voiceoverMergeSuccess (tl : List VideoScene) (sceneIndex : Nat)
    (mergedUrl : String) : List VideoScene :=
  patchByIndex tl sceneIndex
    (fun s => { s with mergedUrl := some mergedUrl, isMerging := false })

/-- Segment of handleGenerateVoiceover run when mergeVideoAudio rejects
(part_000 line 409): clear isMerging at the index snapshot, changing nothing
else. -/
def voiceoverMergeFailure (tl : List VideoScene) (sceneIndex : Nat) :
    List VideoScene :=
  patchByIndex tl sceneIndex (fun s => { s with isMerging := false })

/-- Auto-audio segment of executeGeneration run when generateSpeech resolves
(part_000 line 494): attach audio by the originating scene's id. -/
def autoAudioAttach (tl : List VideoScene) (sceneId : String)
    (speechUrl narrationScript : String) : List VideoScene :=
  patchById tl sceneId
    (fun s => { s with audioUrl := some speechUrl,
                       audioScript := some narrationScript, isMerging := true })

/-- Auto-audio segment run when mergeVideoAudio resolves (part_000 line 499):
store the merged url by the originating scene's id. -/
def autoAudioMergeSuccess (tl : List VideoScene) (sceneId : String)
    (mergedUrl : String) : List VideoScene :=
  patchById tl sceneId
    (fun s => { s with mergedUrl := some mergedUrl, isMerging := false })

/-- Auto-audio segment run when the narration or merge rejects (part_000 line
502): clear isMerging by the originating scene's id. -/
def autoAudioMergeFailure (tl : List VideoScene) (sceneId : String) :
    List VideoScene :=
  patchById tl sceneId (fun s => { s with isMerging := false })

/-- Observable event of one auto-generation run: a generation call completing
with its success bit, or the fixed throttle sleep with its milliseconds. -/
inductive SeqEvent where
  | call (success : Bool)
  | delay (ms : Nat)
deriving DecidableEq, Repr

/-- The auto-generation while loop of handleStartGeneration (part_000 lines
559-575), as a trace-producing recursion.  flag t is the value of
stopAutoGenerationRef.current after t suspension points (awaits) have
completed: the flag can only change across an await, so every read inside one
synchronous segment sees the same value.  results i is the outcome of the
i-th executeGeneration call, and mkScene i the scene it appends on success.
The returned pair is the event trace and the final timeline.  The fuel is the
remaining loop capacity autoGenCount - count, so fuel = autoGenCount at the
initial call (count 0) never runs out while the loop guard holds. -/
def autoGenLoopAux (flag : Nat → Bool) (results : Nat → Bool)
    (mkScene : Nat → VideoScene) (autoGenCount : Nat) :
    Nat → Nat → Nat → List VideoScene → List SeqEvent × List VideoScene
  | 0, _, _, tl => ([], tl)
  | fuel + 1, count, t, tl =>
    if flag t = false ∧ count < autoGenCount then
      -- await executeGeneration(true): one suspension point, outcome results count
      let t1 := t + 1
      if results count = false then
        -- if (!success) break;
        ([SeqEvent.call false], tl)
      else
        let tl1 := tl ++ [mkScene count]
        let count1 := count + 1
        -- if (count < autoGenCount && !stopAutoGenerationRef.current) await 5s sleep
        if count1 < autoGenCount ∧ flag t1 = false then
          let t2 := t1 + 1
          -- if (count >= autoGenCount || stopAutoGenerationRef.current) keepGoing = false
          if flag t2 = true then
            ([SeqEvent.call true, SeqEvent.delay 5000], tl1)
          else
            let rest := autoGenLoopAux flag results mkScene autoGenCount fuel count1 t2 tl1
            (SeqEvent.call true :: SeqEvent.delay 5000 :: rest.1, rest.2)
        else
          -- no sleep; here count1 >= autoGenCount or the flag is set, so the
          -- post-sleep check sets keepGoing = false and the loop exits
          ([SeqEvent.call true], tl1)
    else ([], tl)

/-- The auto-generation run started by handleStartGeneration with count = 0
and no suspension point completed yet. -/
def autoGenLoop (flag : Nat → Bool) (results : Nat → Bool)
    (mkScene : Nat → VideoScene) (autoGenCount : Nat)
    (tl : List VideoScene) : List SeqEvent × List VideoScene :=
  autoGenLoopAux flag results mkScene autoGenCount autoGenCount 0 0 tl

/-- Checks that a failed call is the last event of a trace: the sequence halts
immediately on failure. -/
def haltsOnFailure : List SeqEvent → Bool
  | [] => true
  | SeqEvent.call false :: rest => rest.isEmpty
  | _ :: rest => haltsOnFailure rest

/-- Checks that no two generation calls are adjacent: some delay event stands
between any two successive calls. -/
def callsSeparated : List SeqEvent → Bool
  | SeqEvent.call _ :: SeqEvent.call _ :: _ => false
  | _ :: rest => callsSeparated rest
  | [] => true

/-- Checks that every delay event of a trace sleeps exactly 5000 ms. -/
def delaysFixed5000 : List SeqEvent → Bool
  | [] => true
  | SeqEvent.delay ms :: rest => ms = 5000 && delaysFixed5000 rest
  | _ :: rest => delaysFixed5000 rest

/-- JS scene.duration || 5 (part_000 line 676): 0 is falsy, so a missing or
zero duration falls back to 5 seconds. -/
def durationOr5 (d : Nat) : Nat := if d = 0 then 5 else d

/-- The buffer swap setActivePlayer(prev => prev === 'A' ? 'B' : 'A'). -/
def otherPlayer : Player → Player
  | Player.A => Player.B
  | Player.B => Player.A

/-- handleSceneEnd (part_000 lines 596-626).  The second component is the
extra milliseconds before the advance becomes visible: 800 for a fade or
slide transition window, 0 otherwise.  The movie branch advances, wraps, or
stops; the single-scene branch only replays the current player and changes no
modeled state. -/
def handleSceneEnd (st : StudioState) : StudioState × Nat :=
  if st.isPlayingAll then
    if st.activeSceneIndex + 1 < st.timeline.length then
      let nextIndex := st.activeSceneIndex + 1
      let nextScene := st.timeline.getD nextIndex defaultScene
      if nextScene.transition ≠ TransitionType.cut then
        ({ st with transitionType := nextScene.transition,
                   activeSceneIndex := nextIndex,
                   activePlayer := otherPlayer st.activePlayer,
                   isTransitioning := false }, 800)
      else
        ({ st with transitionType := nextScene.transition,
                   activeSceneIndex := nextIndex,
                   activePlayer := otherPlayer st.activePlayer }, 0)
    else
      if st.isLooping then
        ({ st with activeSceneIndex := 0,
                   activePlayer := otherPlayer st.activePlayer }, 0)
      else
        ({ st with isPlayingAll := false, isTransitioning := false }, 0)
  else (st, 0)

/-- The native onEnded handler of both video buffers (part_000 lines 1013 and
1019): onEnded={() => !isPlayingAll && handleSceneEnd()}.  In movie mode the
native end-of-media event is ignored. -/
def onPlayerEnded (st : StudioState) : StudioState :=
  if st.isPlayingAll then st else (handleSceneEnd st).1

/-- The loop attribute written onto the active video element by the playback
effect (part_000 lines 647 and 656): always true in movie mode, the global
isLooping flag otherwise. -/
def playerLoopFlag (isPlayingAll isLooping : Bool) : Bool :=
  if isPlayingAll then true else isLooping

/-- The duration timer armed by the playback effect (part_000 lines 673-682):
in movie mode, a timeout of (scene.duration || 5) * 1000 ms for the active
scene; outside movie mode no timer is armed, and the effect cleanup clears
any pending one. -/
def armedTimer (st : StudioState) : Option Nat :=
  if st.isPlayingAll then
    (st.timeline.get? st.activeSceneIndex).map
      (fun scene => durationOr5 scene.duration * 1000)
  else none

/-- Discrete-event run of movie playback: starting at absolute time now, arm
the duration timer for the active scene, fire handleSceneEnd at its expiry
(plus the 800 ms window for a non-cut transition), and record
(absolute time, new active index, still playing).  Recursion stops when
playback has stopped or the active scene is missing, mirroring the effect's
early return; fuel bounds the number of timer firings. -/
def movieRun : Nat → StudioState → Nat → List (Nat × Nat × Bool)
  | 0, _, _ => []
  | fuel + 1, st, now =>
    if st.isPlayingAll then
      match st.timeline.get? st.activeSceneIndex with
      | none => []
      | some scene =>
        let fire := now + durationOr5 scene.duration * 1000
        let next := handleSceneEnd st
        (fire + next.2, next.1.activeSceneIndex, next.1.isPlayingAll) ::
          movieRun fuel next.1 (fire + next.2)
    else []

/-- Result of the audio-element branch of the playback effect: which src was
written, whether play() was invoked, whether pause() was invoked. -/
structure AudioElemEffect where
  srcSet : Option String
  playInvoked : Bool
  pauseInvoked : Bool
deriving DecidableEq, Repr

/-- The audio-element branch of the playback effect (part_000 lines 660-671):
use the separate audio player only when the scene has an audioUrl and no
mergedUrl; play it only in movie mode; otherwise pause it. -/
def audioElementEffect (scene : VideoScene) (isPlayingAll : Bool) :
    AudioElemEffect :=
  match scene.audioUrl with
  | some audioUrl =>
    if scene.mergedUrl.isSome then
      { srcSet := none, playInvoked := false, pauseInvoked := true }
    else
      { srcSet := some audioUrl, playInvoked := isPlayingAll,
        pauseInvoked := false }
  | none => { srcSet := none, playInvoked := false, pauseInvoked := true }

/-- Numeric value of a decimal digit character. -/
def digitVal (c : Char) : Nat := c.toNat - 48

/-- Decimal reading of a digit list. -/
def decodeDigits (l : List Char) : Nat :=
  l.foldl (fun acc c => 10 * acc + digitVal c) 0

/-- Decimal reading of a string, used to reason about the scene ids produced
by Date.now().toString(). -/
def decodeNat (s : String) : Nat := decodeDigits s.data

/-- Base state with an empty timeline and default settings, used by the
concrete scenarios below. -/
def emptyState : StudioState :=
  { timeline := [], selectedSceneIds := [], activeSceneIndex := 0,
    isPlayingAll := false, sceneDuration := 8, activePlayer := Player.A,
    isTransitioning := false, transitionType := TransitionType.cut,
    isLooping := false, prompt := "", error := none }

/-- Pre-merged scene used by the C1 scenario: its mergedUrl m0 was produced
from its current url vA and audio a0. -/
def c1Scene : VideoScene :=
  { id := "100", url := "vA", asset := "assetA", prompt := "pA", duration := 8,
    transition := TransitionType.cut, audioUrl := some "a0",
    audioScript := some "s0", mergedUrl := some "m0" }

/-- Scene originating the voiceover merge of the C2 scenario. -/
def c2Scene : VideoScene :=
  { id := "100", url := "vA", asset := "assetA", prompt := "pA", duration := 8,
    transition := TransitionType.cut }

/-- State holding only the originating scene of the C2 scenario. -/
def c2State : StudioState := { emptyState with timeline := [c2Scene] }

/-- State with one scene of duration 8, used by the C3 scenario. -/
def c3State : StudioState :=
  { emptyState with timeline :=
      [{ id := "100", url := "v", asset := "a", prompt := "p", duration := 8,
         transition := TransitionType.cut }] }

/-- Scene appended by the witness runs of the sequencer claims. -/
def seqScene : VideoScene :=
  { id := "500", url := "v", asset := "a", prompt := "p", duration := 8,
    transition := TransitionType.cut }

/-- Pre-merged scene used by the C6 scenario. -/
def c6Scene : VideoScene :=
  { id := "100", url := "vA", asset := "assetA", prompt := "pA", duration := 8,
    transition := TransitionType.cut, audioUrl := some "a0",
    audioScript := some "s0", mergedUrl := some "m0" }

/-- First scene of the C7 playback scenario: declared duration 2 s. -/
def c7Scene1 : VideoScene :=
  { id := "1", url := "v1", asset := "x", prompt := "p", duration := 2,
    transition := TransitionType.cut }

/-- Second scene of the C7 playback scenario: declared duration 3 s. -/
def c7Scene2 : VideoScene :=
  { id := "2", url := "v2", asset := "x", prompt := "p", duration := 3,
    transition := TransitionType.cut }

/-- Movie-mode state for the C7 scenario: timeline of declared durations
[2, 3], playback started at scene 0, looping off. -/
def c7State : StudioState :=
  { emptyState with timeline := [c7Scene1, c7Scene2], isPlayingAll := true,
                    isLooping := false, activeSceneIndex := 0 }

/-- State with one scene, used by the C10 witness. -/
def c10State : StudioState :=
  { emptyState with timeline :=
      [{ id := "100", url := "v", asset := "a", prompt := "p", duration := 8,
         transition := TransitionType.cut }] }

/-! Helper lemmas about the index-addressed and id-addressed patches. -/

theorem mapIdxFrom_length (f : Nat → VideoScene → VideoScene) :
    ∀ (tl : List VideoScene) (k : Nat), (mapIdxFrom f k tl).length = tl.length := by
  intro tl
  induction tl with
  | nil => intro k; rfl
  | cons s rest ih => intro k; simp [mapIdxFrom, ih]

theorem mapIdxFrom_get? (f : Nat → VideoScene → VideoScene) :
    ∀ (tl : List VideoScene) (k i : Nat),
      (mapIdxFrom f k tl)[i]? = tl[i]?.map (f (k + i)) := by
  intro tl
  induction tl with
  | nil => intro k i; simp [mapIdxFrom]
  | cons s rest ih =>
    intro k i
    cases i with
    | zero => simp [mapIdxFrom]
    | succ i =>
      have h : k + 1 + i = k + (i + 1) := by omega
      simpa [mapIdxFrom, h] using ih (k + 1) i

theorem mapIdxFrom_congr (f g : Nat → VideoScene → VideoScene)
    (h : ∀ i s, f i s = g i s) :
    ∀ (tl : List VideoScene) (k : Nat), mapIdxFrom f k tl = mapIdxFrom g k tl := by
  intro tl
  induction tl with
  | nil => intro k; rfl
  | cons s rest ih => intro k; simp [mapIdxFrom, h, ih]

theorem mapIdxFrom_comp (f g : Nat → VideoScene → VideoScene) :
    ∀ (tl : List VideoScene) (k : Nat),
      mapIdxFrom f k (mapIdxFrom g k tl) = mapIdxFrom (fun i s => f i (g i s)) k tl := by
  intro tl
  induction tl with
  | nil => intro k; rfl
  | cons s rest ih => intro k; simp [mapIdxFrom, ih]

theorem patchByIndex_length (tl : List VideoScene) (idx : Nat)
    (p : VideoScene → VideoScene) :
    (patchByIndex tl idx p).length = tl.length :=
  mapIdxFrom_length _ tl 0

theorem patchByIndex_get? (tl : List VideoScene) (idx : Nat)
    (p : VideoScene → VideoScene) (i : Nat) :
    (patchByIndex tl idx p)[i]? =
      tl[i]?.map (fun s => if i = idx then p s else s) := by
  simp [patchByIndex, mapIdxFrom_get?]

theorem patchByIndex_get?_self (tl : List VideoScene) (idx : Nat)
    (p : VideoScene → VideoScene) :
    (patchByIndex tl idx p)[idx]? = tl[idx]?.map p := by
  simp [patchByIndex_get?]

theorem patchByIndex_get?_ne (tl : List VideoScene) (idx : Nat)
    (p : VideoScene → VideoScene) (i : Nat) (h : i ≠ idx) :
    (patchByIndex tl idx p)[i]? = tl[i]? := by
  simp [patchByIndex_get?, h]

theorem patchByIndex_patchByIndex (tl : List VideoScene) (idx : Nat)
    (p q : VideoScene → VideoScene) :
    patchByIndex (patchByIndex tl idx p) idx q =
      patchByIndex tl idx (fun s => q (p s)) := by
  unfold patchByIndex
  rw [mapIdxFrom_comp]
  exact mapIdxFrom_congr _ _ (by intro i s; by_cases h : i = idx <;> simp [h]) tl 0

theorem patchById_get? (tl : List VideoScene) (sceneId : String)
    (p : VideoScene → VideoScene) (i : Nat) :
    (patchById tl sceneId p)[i]? =
      tl[i]?.map (fun s => if s.id = sceneId then p s else s) := by
  simp [patchById, List.getElem?_map]

theorem patchById_length (tl : List VideoScene) (sceneId : String)
    (p : VideoScene → VideoScene) :
    (patchById tl sceneId p).length = tl.length := by
  simp [patchById]

/-! Helper lemmas about the decimal scene ids produced by
Date.now().toString(), i.e. Nat.repr. -/

theorem digitVal_digitChar : ∀ d : Nat, d < 10 → digitVal (Nat.digitChar d) = d := by
  decide

theorem toDigitsCore_append :
    ∀ (fuel n : Nat) (ds : List Char),
      Nat.toDigitsCore 10 fuel n ds = Nat.toDigitsCore 10 fuel n [] ++ ds := by
  intro fuel
  induction fuel with
  | zero => intro n ds; simp [Nat.toDigitsCore]
  | succ fuel ih =>
    intro n ds
    simp only [Nat.toDigitsCore]
    by_cases h : n / 10 = 0
    · simp [h]
    · simp only [h, if_neg, ite_false]
      rw [ih (n / 10) (Nat.digitChar (n % 10) :: ds),
          ih (n / 10) [Nat.digitChar (n % 10)]]
      simp

theorem decodeDigits_concat (l : List Char) (c : Char) :
    decodeDigits (l ++ [c]) = 10 * decodeDigits l + digitVal c := by
  simp [decodeDigits, List.foldl_append]

theorem decodeDigits_toDigitsCore :
    ∀ (fuel n : Nat), n < fuel →
      decodeDigits (Nat.toDigitsCore 10 fuel n []) = n := by
  intro fuel
  induction fuel with
  | zero => intro n hn; omega
  | succ fuel ih =>
    intro n hn
    simp only [Nat.toDigitsCore]
    by_cases h : n / 10 = 0
    · have h10 : n < 10 := (Nat.div_eq_zero_iff (by norm_num)).mp h
      have hm : n % 10 = n := Nat.mod_eq_of_lt h10
      simp [h, decodeDigits, hm, digitVal_digitChar n h10]
    · have hge : 10 ≤ n := by
        by_contra hc
        exact h ((Nat.div_eq_zero_iff (by norm_num)).mpr (by omega))
      have hdiv : n / 10 < fuel := by
        have h1 : n / 10 < n := Nat.div_lt_self (by omega) (by norm_num)
        omega
      simp only [h, if_neg, ite_false]
      rw [toDigitsCore_append, decodeDigits_concat, ih (n / 10) hdiv,
          digitVal_digitChar (n % 10) (Nat.mod_lt n (by norm_num))]
      omega

theorem decodeNat_repr (n : Nat) : decodeNat (Nat.repr n) = n := by
  have h : (Nat.repr n).data = Nat.toDigits 10 n := rfl
  unfold decodeNat
  rw [h]
  exact decodeDigits_toDigitsCore (n + 1) n (Nat.lt_succ_self n)

/-! Helper lemmas about the auto-generation loop traces. -/

theorem autoGenLoopAux_haltsOnFailure (flag results : Nat → Bool)
    (mk : Nat → VideoScene) (n : Nat) :
    ∀ (fuel count t : Nat) (tl : List VideoScene),
      haltsOnFailure (autoGenLoopAux flag results mk n fuel count t tl).1 = true := by
  intro fuel
  induction fuel with
  | zero => intro count t tl; rfl
  | succ fuel ih =>
    intro count t tl
    simp only [autoGenLoopAux]
    split
    · split
      · rfl
      · split
        · split
          · rfl
          · simpa only [haltsOnFailure] using ih (count + 1) (t + 2) (tl ++ [mk count])
        · rfl
    · rfl

theorem autoGenLoopAux_callsSeparated (flag results : Nat → Bool)
    (mk : Nat → VideoScene) (n : Nat) :
    ∀ (fuel count t : Nat) (tl : List VideoScene),
      callsSeparated (autoGenLoopAux flag results mk n fuel count t tl).1 = true := by
  intro fuel
  induction fuel with
  | zero => intro count t tl; rfl
  | succ fuel ih =>
    intro count t tl
    simp only [autoGenLoopAux]
    split
    · split
      · rfl
      · split
        · split
          · rfl
          · simpa only [callsSeparated] using ih (count + 1) (t + 2) (tl ++ [mk count])
        · rfl
    · rfl

theorem autoGenLoopAux_delaysFixed5000 (flag results : Nat → Bool)
    (mk : Nat → VideoScene) (n : Nat) :
    ∀ (fuel count t : Nat) (tl : List VideoScene),
      delaysFixed5000 (autoGenLoopAux flag results mk n fuel count t tl).1 = true := by
  intro fuel
  induction fuel with
  | zero => intro count t tl; rfl
  | succ fuel ih =>
    intro count t tl
    simp only [autoGenLoopAux]
    split
    · split
      · rfl
      · split
        · split
          · rfl
          · simpa only [delaysFixed5000] using ih (count + 1) (t + 2) (tl ++ [mk count])
        · rfl
    · rfl

theorem autoGenLoopAux_timeline_extends (flag results : Nat → Bool)
    (mk : Nat → VideoScene) (n : Nat) :
    ∀ (fuel count t : Nat) (tl : List VideoScene),
      ∃ suf, (autoGenLoopAux flag results mk n fuel count t tl).2 = tl ++ suf := by
  intro fuel
  induction fuel with
  | zero => intro count t tl; exact ⟨[], by simp [autoGenLoopAux]⟩
  | succ fuel ih =>
    intro count t tl
    simp only [autoGenLoopAux]
    split
    · split
      · exact ⟨[], by simp⟩
      · split
        · split
          · exact ⟨[mk count], rfl⟩
          · obtain ⟨suf, hsuf⟩ := ih (count + 1) (t + 2) (tl ++ [mk count])
            exact ⟨[mk count] ++ suf, by simp [hsuf]⟩
        · exact ⟨[mk count], rfl⟩
    · exact ⟨[], by simp⟩

/-! Helper lemma about sequences of successful generation appends. -/

theorem appendRun_spec :
    ∀ (gs : List GenInput) (st : StudioState),
      (appendRun st gs).timeline =
        st.timeline ++ gs.map (fun g =>
          mkNewScene g.now g.url g.asset g.enhancedPrompt st.sceneDuration)
      ∧ (appendRun st gs).sceneDuration = st.sceneDuration
      ∧ (gs ≠ [] →
          (appendRun st gs).activeSceneIndex = st.timeline.length + gs.length - 1) := by
  intro gs
  induction gs with
  | nil => intro st; simp [appendRun]
  | cons g gs ih =>
    intro st
    obtain ⟨h1, h2, h3⟩ := ih (appendNewScene st g.now g.url g.asset g.enhancedPrompt)
    refine ⟨?_, ?_, ?_⟩
    · rw [appendRun, h1]
      simp [appendNewScene]
    · rw [appendRun, h2]
      rfl
    · intro _
      rcases gs with _ | ⟨g2, gs⟩
      · show (appendNewScene st g.now g.url g.asset g.enhancedPrompt).activeSceneIndex = _
        simp [appendNewScene]
      · rw [appendRun, h3 (by simp)]
        simp [appendNewScene]
        omega

/-- Reformulation of handleDurationChange as a single record update. -/
theorem handleDurationChange_eq (val : Nat) (st : StudioState) :
    handleDurationChange val st =
      { st with sceneDuration := val,
                timeline :=
                  if st.timeline.length > 0 then
                    patchByIndex st.timeline st.activeSceneIndex
                      (fun s => { s with duration := val })
                  else st.timeline } := by
  unfold handleDurationChange
  by_cases h : st.timeline.length > 0 <;> simp [h]

/-- C3 counterexample: handleDurationChange performs no clamping.  On a
one-scene timeline, input 0 is stored as 0 (the claim requires 1) and input
20 as 20 (the claim requires 15), both in the active scene and in the global
default sceneDuration. -/
theorem C3_counterexample :
    ¬ ((handleDurationChange 0 c3State).timeline[0]?).map VideoScene.duration = some 1
    ∧ ((handleDurationChange 0 c3State).timeline[0]?).map VideoScene.duration = some 0
    ∧ ¬ ((handleDurationChange 20 c3State).timeline[0]?).map VideoScene.duration = some 15
    ∧ ((handleDurationChange 20 c3State).timeline[0]?).map VideoScene.duration = some 20
    ∧ (handleDurationChange 0 c3State).sceneDuration = 0
    ∧ (handleDurationChange 20 c3State).sceneDuration = 20 := by
  decide

/-- C3 (amended): handleDurationChange stores the input value without
clamping (input 0 yields 0 and input 20 yields 20; the [1,15] bound is
enforced only by the range element's min/max attributes, not by the
handler), and it is idempotent: applying the same input twice leaves exactly
the state of applying it once. -/
theorem C3_setDuration_unclamped_idempotent :
    ∀ (val : Nat) (st : StudioState),
      handleDurationChange val (handleDurationChange val st) =
        handleDurationChange val st
      ∧ (handleDurationChange val st).sceneDuration = val
      ∧ (st.activeSceneIndex < st.timeline.length →
          ((handleDurationChange val st).timeline[st.activeSceneIndex]?).map
              VideoScene.duration = some val) := by
  intro val st
  refine ⟨?_, ?_, ?_⟩
  · rw [handleDurationChange_eq val (handleDurationChange val st),
        handleDurationChange_eq val st]
    by_cases h : st.timeline.length > 0
    · simp only [h, if_pos, patchByIndex_length, if_true, gt_iff_lt]
      rw [patchByIndex_patchByIndex]
    · simp [h]
  · rw [handleDurationChange_eq]
  · intro h
    rw [handleDurationChange_eq]
    have hpos : st.timeline.length > 0 := by omega
    simp only [hpos, if_pos, gt_iff_lt, if_true]
    rw [patchByIndex_get?_self, List.getElem?_eq_getElem h]
    rfl

/-- Witness for the amended C3 theorem at input 7 on a concrete state. -/
theorem C3_setDuration_witness :
    c3State.activeSceneIndex < c3State.timeline.length
    ∧ ((handleDurationChange 7 c3State).timeline[c3State.activeSceneIndex]?).map
        VideoScene.duration = some 7 :=
  ⟨by decide, (C3_setDuration_unclamped_idempotent 7 c3State).2.2 (by decide)⟩

/-- C10: handleDurationChange is not frame-local to the active scene.  One
input writes both the active scene's duration field and the global
sceneDuration default, and any scene generated afterwards is created with
exactly that duration. -/
theorem C10_duration_changes_future_default :
    ∀ (st : StudioState) (val : Nat),
      st.activeSceneIndex < st.timeline.length →
      ∀ (now : Nat) (url asset p : String),
        (handleDurationChange val st).sceneDuration = val
        ∧ ((handleDurationChange val st).timeline[st.activeSceneIndex]?).map
            VideoScene.duration = some val
        ∧ ((appendNewScene (handleDurationChange val st) now url asset p).timeline.getLast?).map
            VideoScene.duration = some val := by
  intro st val h now url asset p
  refine ⟨?_, ?_, ?_⟩
  · rw [handleDurationChange_eq]
  · rw [handleDurationChange_eq]
    have hpos : st.timeline.length > 0 := by omega
    simp only [hpos, if_pos, gt_iff_lt, if_true]
    rw [patchByIndex_get?_self, List.getElem?_eq_getElem h]
    rfl
  · show ((_ ++ [mkNewScene now url asset p
        (handleDurationChange val st).sceneDuration]).getLast?).map
        VideoScene.duration = some val
    rw [List.getLast?_concat]
    rw [handleDurationChange_eq]
    rfl

/-- Witness for the C10 theorem on a concrete one-scene state at input 4. -/
theorem C10_duration_witness :
    c10State.activeSceneIndex < c10State.timeline.length
    ∧ ((appendNewScene (handleDurationChange 4 c10State) 900 "u" "a" "p").timeline.getLast?).map
        VideoScene.duration = some 4 :=
  ⟨by decide,
   (C10_duration_changes_future_default c10State 4 (by decide) 900 "u" "a" "p").2.2⟩

/-- C2 counterexample: handleGenerateVoiceover's merge completion patches by
the activeSceneIndex snapshot (0) captured before its awaits, not by scene
id.  If the timeline is cleared and a different scene (id "200") is appended
while the merge of scene id "100" is pending, the late-resolving merge
result mA is applied to the scene with id "200" — a scene other than the
originating one. -/
theorem C2_counterexample :
    ((voiceoverMergeSuccess
        (appendNewScene (clearTimeline c2State true) 200 "vB" "assetB" "pB").timeline
        0 "mA")[0]?).map (fun s => (s.id, s.mergedUrl))
      = some ("200", some "mA")
    ∧ c2Scene.id = "100"
    ∧ ("200" : String) ≠ "100" := by
  decide

/-- C2 (amended): the auto-audio completions of executeGeneration do patch by
the originating scene's id: when the ids of the timeline are pairwise
distinct, a late-resolving auto-audio merge result lands exactly on the
originating scene (receiving only the merged url and the cleared isMerging
flag) and on no other position.  handleGenerateVoiceover's completions,
however, patch by an index snapshot, as the counterexample shows. -/
theorem C2_merge_by_id_targets_originating_scene :
    ∀ (tl : List VideoScene) (sid m : String) (j : Nat) (sj : VideoScene),
      (tl.map VideoScene.id).Nodup → tl[j]? = some sj → sj.id = sid →
        (autoAudioMergeSuccess tl sid m).length = tl.length
        ∧ (autoAudioMergeSuccess tl sid m)[j]? =
            some { sj with mergedUrl := some m, isMerging := false }
        ∧ (∀ i, i ≠ j → (autoAudioMergeSuccess tl sid m)[i]? = tl[i]?) := by
  intro tl sid m j sj hnodup hj hid
  unfold autoAudioMergeSuccess
  have hjlen : j < tl.length := by
    by_contra hc
    rw [List.getElem?_eq_none (by omega)] at hj
    exact Option.noConfusion hj
  refine ⟨patchById_length tl sid _, ?_, ?_⟩
  · rw [patchById_get?, hj]
    simp [hid]
  · intro i hne
    by_cases hilen : i < tl.length
    · have hii : tl[i]? = some tl[i] := List.getElem?_eq_getElem hilen
      rw [patchById_get?, hii]
      have hjj : tl[j] = sj := by
        have := List.getElem?_eq_getElem hjlen
        rw [hj] at this
        exact (Option.some.injEq _ _).mp this.symm
      have hneid : tl[i].id ≠ sid := by
        intro hcontra
        have hidnodup : (tl.map VideoScene.id).Nodup := hnodup
        have hlen' : i < (tl.map VideoScene.id).length := by simpa using hilen
        have hlen'' : j < (tl.map VideoScene.id).length := by simpa using hjlen
        have hmi : (tl.map VideoScene.id)[i] = tl[i].id := by
          simp [List.getElem_map]
        have hmj : (tl.map VideoScene.id)[j] = tl[j].id := by
          simp [List.getElem_map]
        have heq : (tl.map VideoScene.id)[i] = (tl.map VideoScene.id)[j] := by
          rw [hmi, hmj, hjj, hcontra, hid]
        exact hne (hidnodup.getElem_inj_iff.mp heq)
      simp [hneid]
    · have h1 : tl[i]? = none := List.getElem?_eq_none (by omega)
      have h2 : (patchById tl sid
          (fun s => { s with mergedUrl := some m, isMerging := false }))[i]? = none := by
        apply List.getElem?_eq_none
        rw [patchById_length]
        omega
      rw [h1, h2]

/-- Witness for the amended C2 theorem: a two-scene timeline with distinct
ids, the merge of the second scene resolving late still lands on it. -/
theorem C2_merge_by_id_witness :
    (([c2Scene, seqScene].map VideoScene.id).Nodup
      ∧ ([c2Scene, seqScene] : List VideoScene)[1]? = some seqScene
      ∧ seqScene.id = "500")
    ∧ (autoAudioMergeSuccess [c2Scene, seqScene] "500" "mX")[1]? =
        some { seqScene with mergedUrl := some "mX", isMerging := false }
    ∧ (∀ i, i ≠ 1 → (autoAudioMergeSuccess [c2Scene, seqScene] "500" "mX")[i]? =
        ([c2Scene, seqScene] : List VideoScene)[i]?) :=
  ⟨⟨by decide, by decide, by decide⟩,
   (C2_merge_by_id_targets_originating_scene [c2Scene, seqScene] "500" "mX" 1 seqScene
      (by decide) (by decide) (by decide)).2.1,
   (C2_merge_by_id_targets_originating_scene [c2Scene, seqScene] "500" "mX" 1 seqScene
      (by decide) (by decide) (by decide)).2.2⟩

/-- C1 counterexample: regenerating audio for a scene that already has a
mergedUrl does not invalidate the stale mergedUrl.  Scene c1Scene has
mergedUrl m0 produced from its old audio a0; attaching freshly generated
audio a1 (the very first timeline patch of handleGenerateVoiceover) leaves
the scene observable with the new audioUrl a1 and the old mergedUrl m0
together, which the claim forbids. -/
theorem C1_counterexample :
    ((voiceoverAttachAudio [c1Scene] 0 "a1" "s1")[0]?).map
        (fun s => (s.audioUrl, s.mergedUrl)) = some (some "a1", some "m0")
    ∧ c1Scene.audioUrl = some "a0"
    ∧ ("a1" : String) ≠ "a0" := by
  decide

/-- C1 (amended): the audio-attachment patch of handleGenerateVoiceover sets
the new audioUrl and isMerging but retains any stale mergedUrl; when the
merge then succeeds, the mergedUrl is recomputed and the scene's url and new
audioUrl are unchanged (the round-trip half of the claim); when the merge
fails, the stale mergedUrl is kept permanently alongside the new audioUrl.
So while a merge is pending — and forever after a failed merge — a scene can
be observed with a new audioUrl and an old mergedUrl together. -/
theorem C1_stale_merged_url_retained :
    ∀ (tl : List VideoScene) (i : Nat) (s0 : VideoScene) (a scr m : String),
      tl[i]? = some s0 →
        (voiceoverAttachAudio tl i a scr)[i]? =
          some { s0 with audioUrl := some a, audioScript := some scr,
                         isMerging := true }
        ∧ (voiceoverMergeSuccess (voiceoverAttachAudio tl i a scr) i m)[i]? =
          some { s0 with audioUrl := some a, audioScript := some scr,
                         mergedUrl := some m, isMerging := false }
        ∧ (voiceoverMergeFailure (voiceoverAttachAudio tl i a scr) i)[i]? =
          some { s0 with audioUrl := some a, audioScript := some scr,
                         isMerging := false } := by
  intro tl i s0 a scr m h0
  unfold voiceoverAttachAudio voiceoverMergeSuccess voiceoverMergeFailure
  rw [patchByIndex_patchByIndex, patchByIndex_patchByIndex]
  rw [patchByIndex_get?_self, patchByIndex_get?_self, patchByIndex_get?_self, h0]
  exact ⟨rfl, rfl, rfl⟩

/-- Witness for the amended C1 theorem on the concrete pre-merged scene. -/
theorem C1_stale_merged_url_witness :
    (([c1Scene] : List VideoScene)[0]? = some c1Scene)
    ∧ (voiceoverMergeFailure (voiceoverAttachAudio [c1Scene] 0 "a1" "s1") 0)[0]? =
        some { c1Scene with audioUrl := some "a1", audioScript := some "s1",
                            isMerging := false } :=
  ⟨by decide,
   (C1_stale_merged_url_retained [c1Scene] 0 c1Scene "a1" "s1" "m1" (by decide)).2.2⟩

/-- C6 counterexample: a merge failure does not leave mergedUrl unset on
every scene.  Regenerating audio for the pre-merged scene c6Scene (whose
mergedUrl is m0) and then failing the merge leaves isMerging = false but
mergedUrl still set to the stale m0, contradicting the claimed
"mergedUrl unset". -/
theorem C6_counterexample :
    ((voiceoverMergeFailure (voiceoverAttachAudio [c6Scene] 0 "a1" "s1") 0)[0]?).map
        (fun s => (s.isMerging, s.mergedUrl)) = some (false, some "m0")
    ∧ (some "m0" : Option String) ≠ none := by
  decide

/-- C6 (amended): a merge failure clears isMerging and changes nothing else:
the failing scene keeps its url, duration, audioUrl and any pre-existing
mergedUrl exactly (in particular no new mergedUrl is produced, so a scene
that had none still has none), and every other scene and the timeline length
are untouched.  This holds for both the index-addressed voiceover failure
patch and the id-addressed auto-audio failure patch. -/
theorem C6_merge_failure_only_clears_isMerging :
    ∀ (tl : List VideoScene) (i : Nat) (s0 : VideoScene),
      tl[i]? = some s0 →
        (voiceoverMergeFailure tl i).length = tl.length
        ∧ (voiceoverMergeFailure tl i)[i]? = some { s0 with isMerging := false }
        ∧ (∀ j : Nat, j ≠ i → (voiceoverMergeFailure tl i)[j]? = tl[j]?)
        ∧ (∀ sid : String, (autoAudioMergeFailure tl sid).length = tl.length)
        ∧ (∀ (sid : String) (j : Nat) (sj : VideoScene), tl[j]? = some sj →
            (autoAudioMergeFailure tl sid)[j]? =
              some (if sj.id = sid then { sj with isMerging := false } else sj)) := by
  intro tl i s0 h0
  unfold voiceoverMergeFailure autoAudioMergeFailure
  refine ⟨patchByIndex_length tl i _, ?_, ?_, ?_, ?_⟩
  · rw [patchByIndex_get?_self, h0]
    rfl
  · intro j hj
    exact patchByIndex_get?_ne tl i _ j hj
  · intro sid
    exact patchById_length tl sid _
  · intro sid j sj h
    rw [patchById_get?, h]
    by_cases hs : sj.id = sid <;> simp [hs]

/-- Witness for the amended C6 theorem on the concrete pre-merged scene. -/
theorem C6_merge_failure_witness :
    (([c6Scene] : List VideoScene)[0]? = some c6Scene)
    ∧ (voiceoverMergeFailure [c6Scene] 0)[0]? =
        some { c6Scene with isMerging := false } :=
  ⟨by decide,
   (C6_merge_failure_only_clears_isMerging [c6Scene] 0 c6Scene (by decide)).2.1⟩

/-- C4: with target count 3, a successful first call and a failing second
call, the auto-generation run makes exactly 2 calls, appends exactly one
scene (mk 0) after the prior timeline, and attempts no 3rd call: the trace
is exactly call-success, the 5 s throttle, call-failure.  In general, on any
flag schedule and outcome schedule, a failing call is always the last event
of the run (the sequencer halts immediately) and the final timeline always
extends the initial one (previously appended scenes are preserved). -/
theorem C4_failure_halts_after_one_scene :
    ∀ (tl : List VideoScene) (mk : Nat → VideoScene) (results : Nat → Bool),
      results 0 = true → results 1 = false →
        autoGenLoop (fun _ => false) results mk 3 tl =
          ([SeqEvent.call true, SeqEvent.delay 5000, SeqEvent.call false],
           tl ++ [mk 0])
        ∧ (∀ (flag res : Nat → Bool) (mk2 : Nat → VideoScene) (n : Nat)
             (tl2 : List VideoScene),
             haltsOnFailure (autoGenLoop flag res mk2 n tl2).1 = true
             ∧ ∃ suf, (autoGenLoop flag res mk2 n tl2).2 = tl2 ++ suf) := by
  intro tl mk results h0 h1
  refine ⟨?_, ?_⟩
  · simp [autoGenLoop, autoGenLoopAux, h0, h1]
  · intro flag res mk2 n tl2
    exact ⟨autoGenLoopAux_haltsOnFailure flag res mk2 n n 0 0 tl2,
           autoGenLoopAux_timeline_extends flag res mk2 n n 0 0 tl2⟩

/-- Witness for the C4 theorem with outcomes success-then-failure. -/
theorem C4_failure_halts_witness :
    ((fun i => decide (i = 0)) 0 = true ∧ (fun i => decide (i = 0)) 1 = false)
    ∧ autoGenLoop (fun _ => false) (fun i => decide (i = 0))
        (fun _ => seqScene) 3 [] =
        ([SeqEvent.call true, SeqEvent.delay 5000, SeqEvent.call false],
         [seqScene]) :=
  ⟨⟨by decide, by decide⟩,
   (C4_failure_halts_after_one_scene [] (fun _ => seqScene)
      (fun i => decide (i = 0)) (by decide) (by decide)).1⟩

/-- C5: in every auto-generation run, (i) no two generation calls are
adjacent in the trace — a throttle delay stands between successive calls
before the next request is issued; (ii) every such delay is the fixed
5000 ms; (iii) a cancellation flag already set before the first iteration
prevents any call; (iv) a cancellation arriving while the first call is in
flight (flag false at entry, true from the next suspension point on) never
aborts that call: its scene is still appended, and only the next iteration
(and its delay) is prevented; (v) a full 3-iteration run delays between
iterations but not after the final one: its trace ends with a call. -/
theorem C5_throttle_and_cooperative_cancellation :
    ∀ (flag results : Nat → Bool) (mk : Nat → VideoScene) (n : Nat)
      (tl : List VideoScene),
      callsSeparated (autoGenLoop flag results mk n tl).1 = true
      ∧ delaysFixed5000 (autoGenLoop flag results mk n tl).1 = true
      ∧ (flag 0 = true → autoGenLoop flag results mk n tl = ([], tl))
      ∧ (flag 0 = false → (∀ t : Nat, 1 ≤ t → flag t = true) →
          results 0 = true → 1 ≤ n →
          autoGenLoop flag results mk n tl =
            ([SeqEvent.call true], tl ++ [mk 0]))
      ∧ ((∀ t : Nat, flag t = false) → (∀ i : Nat, results i = true) →
          autoGenLoop flag results mk 3 tl =
            ([SeqEvent.call true, SeqEvent.delay 5000, SeqEvent.call true,
              SeqEvent.delay 5000, SeqEvent.call true],
             tl ++ [mk 0, mk 1, mk 2])) := by
  intro flag results mk n tl
  refine ⟨autoGenLoopAux_callsSeparated flag results mk n n 0 0 tl,
          autoGenLoopAux_delaysFixed5000 flag results mk n n 0 0 tl, ?_, ?_, ?_⟩
  · intro h
    cases n with
    | zero => rfl
    | succ n => simp [autoGenLoop, autoGenLoopAux, h]
  · intro h0 hrest hres hn
    have h2 : flag 1 = true := hrest 1 (by omega)
    cases n with
    | zero => omega
    | succ n => simp [autoGenLoop, autoGenLoopAux, h0, hres, h2]
  · intro hf hr
    simp [autoGenLoop, autoGenLoopAux, hf, hr]

/-- Witness for the C5 theorem: the all-false flag with all-success outcomes
for its full-run conjunct, and a flag set from the first suspension point on
for its cancellation-in-flight conjunct. -/
theorem C5_throttle_witness :
    autoGenLoop (fun _ => false) (fun _ => true) (fun _ => seqScene) 3 [] =
      ([SeqEvent.call true, SeqEvent.delay 5000, SeqEvent.call true,
        SeqEvent.delay 5000, SeqEvent.call true],
       [seqScene, seqScene, seqScene])
    ∧ autoGenLoop (fun t => decide (1 ≤ t)) (fun _ => true)
        (fun _ => seqScene) 3 [] = ([SeqEvent.call true], [seqScene]) :=
  ⟨(C5_throttle_and_cooperative_cancellation (fun _ => false) (fun _ => true)
      (fun _ => seqScene) 3 []).2.2.2.2 (fun t => rfl) (fun i => rfl),
   (C5_throttle_and_cooperative_cancellation (fun t => decide (1 ≤ t))
      (fun _ => true) (fun _ => seqScene) 3 []).2.2.2.1 (by decide)
      (fun t ht => by simp [ht]) rfl (by omega)⟩

/-- C8: the separate audio element is paused whenever the active scene has a
mergedUrl (the merged asset already carries the audio), and play() is
invoked on it exactly when the scene has an audioUrl, has no mergedUrl, and
movie playback is running — so merged audio and the standalone audio track
are never driven simultaneously. -/
theorem C8_merged_scene_silences_audio_element :
    ∀ (scene : VideoScene) (isPlayingAll : Bool),
      (audioElementEffect scene isPlayingAll).pauseInvoked =
        (scene.audioUrl.isNone || scene.mergedUrl.isSome)
      ∧ (audioElementEffect scene isPlayingAll).playInvoked =
        (scene.audioUrl.isSome && scene.mergedUrl.isNone && isPlayingAll) := by
  intro scene p
  rcases ha : scene.audioUrl with _ | a <;>
    rcases hm : scene.mergedUrl with _ | m <;>
      simp [audioElementEffect, ha, hm]

/-- C9 counterexample: two scenes generated within the same Date.now()
millisecond (clock reading 1000 twice) receive the identical id "1000", so
the appended ids are not pairwise distinct even though the appends happened
in sequence. -/
theorem C9_counterexample :
    (appendRun emptyState
        [⟨1000, "u1", "as1", "p1"⟩, ⟨1000, "u2", "as2", "p2"⟩]).timeline.map
        VideoScene.id = ["1000", "1000"]
    ∧ ¬ ((appendRun emptyState
        [⟨1000, "u1", "as1", "p1"⟩, ⟨1000, "u2", "as2", "p2"⟩]).timeline.map
        VideoScene.id).Nodup := by
  decide

/-- C9 (amended): appending N scenes appends them in order after any prior
timeline, each id being the decimal string of that append's Date.now()
reading (so reading the ids back as numbers recovers the clock sequence,
i.e. creation order), and the newly appended scene is always the active one;
the new ids are pairwise distinct provided the clock strictly increases
between appends — appends within the same millisecond collide, as the
counterexample shows. -/
theorem C9_append_ids_ordered_and_distinct :
    ∀ (st : StudioState) (gs : List GenInput),
      (appendRun st gs).timeline =
        st.timeline ++ gs.map (fun g =>
          mkNewScene g.now g.url g.asset g.enhancedPrompt st.sceneDuration)
      ∧ ((appendRun st gs).timeline.drop st.timeline.length).map VideoScene.id =
          gs.map (fun g => Nat.repr g.now)
      ∧ (((appendRun st gs).timeline.drop st.timeline.length).map
          VideoScene.id).map decodeNat = gs.map GenInput.now
      ∧ (gs ≠ [] → (appendRun st gs).activeSceneIndex =
          st.timeline.length + gs.length - 1)
      ∧ (List.Chain' (fun a b => a < b) (gs.map GenInput.now) →
          (((appendRun st gs).timeline.drop st.timeline.length).map
            VideoScene.id).Nodup) := by
  intro st gs
  obtain ⟨h1, h2, h3⟩ := appendRun_spec gs st
  have hids : ((appendRun st gs).timeline.drop st.timeline.length).map
      VideoScene.id = gs.map (fun g => Nat.repr g.now) := by
    rw [h1, List.drop_left, List.map_map]
    rfl
  have hdec : (((appendRun st gs).timeline.drop st.timeline.length).map
      VideoScene.id).map decodeNat = gs.map GenInput.now := by
    rw [hids, List.map_map]
    exact List.map_congr_left (fun g _ => decodeNat_repr g.now)
  refine ⟨h1, hids, hdec, h3, ?_⟩
  · intro hchain
    have hpair : (gs.map GenInput.now).Pairwise (fun a b => a < b) :=
      List.chain'_iff_pairwise.mp hchain
    have hnodup : (gs.map GenInput.now).Nodup :=
      hpair.imp (fun hab => Nat.ne_of_lt hab)
    have : ((((appendRun st gs).timeline.drop st.timeline.length).map
        VideoScene.id).map decodeNat).Nodup := by
      rw [hdec]
      exact hnodup
    exact List.Nodup.of_map decodeNat this

/-- Witness for the amended C9 theorem: two appends one millisecond apart
yield distinct, creation-ordered ids with the second scene active. -/
theorem C9_append_ids_witness :
    (appendRun emptyState
        [⟨1000, "u1", "as1", "p1"⟩, ⟨1001, "u2", "as2", "p2"⟩]).activeSceneIndex = 1
    ∧ (((appendRun emptyState
        [⟨1000, "u1", "as1", "p1"⟩, ⟨1001, "u2", "as2", "p2"⟩]).timeline.drop 0).map
        VideoScene.id).Nodup :=
  ⟨(C9_append_ids_ordered_and_distinct emptyState
      [⟨1000, "u1", "as1", "p1"⟩, ⟨1001, "u2", "as2", "p2"⟩]).2.2.2.1 (by decide),
   (C9_append_ids_ordered_and_distinct emptyState
      [⟨1000, "u1", "as1", "p1"⟩, ⟨1001, "u2", "as2", "p2"⟩]).2.2.2.2
      (by norm_num [List.chain'_iff_pairwise])⟩

/-- C7: in movie playback, advancement is driven solely by the declared scene
durations through the armed timer.  For any two scenes of declared durations
2 s and 3 s (all other fields, in particular the underlying media, are
arbitrary) with looping off, the run advances exactly once at t = 2000 ms
and stops at t = 5000 ms.  Moreover the native end-of-media event is ignored
in movie mode, the active video element is set to loop in movie mode, no
duration timer is armed once playback has stopped (the pending timer is
cleared), and a falsy declared duration falls back to 5 s. -/
theorem C7_movie_playback_timer_driven :
    ∀ (s1 s2 : VideoScene) (st : StudioState),
      s1.duration = 2 → s2.duration = 3 → s2.transition = TransitionType.cut →
      st.timeline = [s1, s2] → st.activeSceneIndex = 0 →
      st.isPlayingAll = true → st.isLooping = false →
        movieRun 10 st 0 = [(2000, 1, true), (5000, 1, false)]
      ∧ (∀ st2 : StudioState, st2.isPlayingAll = true → onPlayerEnded st2 = st2)
      ∧ (∀ l : Bool, playerLoopFlag true l = true)
      ∧ (∀ st2 : StudioState, st2.isPlayingAll = false → armedTimer st2 = none)
      ∧ durationOr5 0 = 5 := by
  intro s1 s2 st hd1 hd2 htr htl hidx hplay hloop
  refine ⟨?_, ?_, ?_, ?_, rfl⟩
  · simp [movieRun, handleSceneEnd, durationOr5, hd1, hd2, htr, htl, hidx,
          hplay, hloop, otherPlayer]
  · intro st2 h
    simp [onPlayerEnded, h]
  · intro l
    rfl
  · intro st2 h
    simp [armedTimer, h]

/-- Witness for the C7 theorem on the concrete two-scene movie state. -/
theorem C7_movie_playback_witness :
    (c7Scene1.duration = 2 ∧ c7Scene2.duration = 3
      ∧ c7State.timeline = [c7Scene1, c7Scene2] ∧ c7State.isPlayingAll = true)
    ∧ movieRun 10 c7State 0 = [(2000, 1, true), (5000, 1, false)] :=
  ⟨⟨rfl, rfl, rfl, rfl⟩,
   (C7_movie_playback_timer_driven c7Scene1 c7Scene2 c7State rfl rfl rfl rfl
      rfl rfl rfl).1⟩
